import Mathlib

/-!
Verification of the ServerKit multipart parsing core.

This file gives a shallow embedding of the multipart parsing layer:

* `packages/multipart/src/types.ts` — the data model (`FieldData`, `FileData`,
  `MultipartData`, `MultipartLimits`);
* `busboy.wrapper.ts` (`BusboyWrapper`) — the promise-based adapter around the
  Busboy tokenizer, modelled as a state machine over delivered events;
* `packages/multipart/src/multipart.related.parser.ts`
  (`MultipartRelatedParser`) — the sibling multipart/related variant;
* `multipart.body.ts` (`MultipartBody`) — the high-level API merging default
  and per-call limits;
* the slice of `packages/errors` (`HttpError`, `httpError`,
  `withInternalDetails`) that the multipart layer uses.

The event emitters (Busboy, the request stream) are modelled by explicit
listener registries: delivering an event runs the corresponding handler method
exactly when a listener for it is registered.  Caller-supplied file handlers
are asynchronous; their eventual settlement is delivered as a separate event,
valid only for a handler invocation that is actually in flight.  Promise
semantics are explicit: a parse operation's promise settles at most once and
keeps its first settlement.
-/

namespace ServerKit

/-- Parsed form-field data (`FieldData` in types.ts). -/
structure FieldData where
  value : String
  nameTruncated : Bool
  valueTruncated : Bool
  encoding : String
  mimeType : String
deriving DecidableEq, Repr

/-- Parsed file data (`FileData` in types.ts).  The readable stream is
represented by a numeric stream identity: only stream identity (which stream
is passed to the handler, which stream gets piped into the null sink) is
observable in this embedding. -/
structure FileData where
  stream : Nat
  filename : String
  encoding : String
  mimeType : String
deriving DecidableEq, Repr

/-- `MultipartData = FieldData | FileData` from types.ts. -/
inductive MultipartData where
  | fieldPart (d : FieldData)
  | filePart (d : FileData)
deriving DecidableEq, Repr

/-- A value stored in the fields map: either a single `MultipartData` or an
array of them (`MultipartData | MultipartData[]`). -/
inductive Entry where
  | one (d : MultipartData)
  | many (ds : List MultipartData)
deriving DecidableEq, Repr

/-- The `Map<string, MultipartData | MultipartData[]>` of parsed fields,
modelled as an insertion-ordered association list without duplicate keys
(JS `Map` semantics: `set` on an existing key updates in place). -/
abbrev FieldsMap := List (String × Entry)

/-- JS `Map.prototype.get`. -/
def mapGet (m : FieldsMap) (k : String) : Option Entry :=
  match m with
  | [] => none
  | (k', v) :: rest => if k' = k then some v else mapGet rest k

/-- JS `Map.prototype.set`: update the binding in place if the key is
present, otherwise append the new binding at the end. -/
def mapSet (m : FieldsMap) (k : String) (v : Entry) : FieldsMap :=
  match m with
  | [] => [(k, v)]
  | (k', v') :: rest => if k' = k then (k, v) :: rest else (k', v') :: mapSet rest k v

/-- The `HttpError` class of `packages/errors`, restricted to the fields the
multipart layer observes: the status code and the internal-details record
(modelled as a list of string key/value pairs).  The `message` field (which
`httpError` defaults from `HttpStatusMap[statusCode]`, a fixed table) is a
function of the status code alone for every error built here, so omitting it
does not affect equality of error values. -/
structure HttpError where
  statusCode : Nat
  internalDetails : Option (List (String × String)) := none
deriving DecidableEq, Repr

/-- The `httpError` factory from `packages/errors` (message argument omitted,
as at every call site in the multipart layer). -/
def httpError (statusCode : Nat) : HttpError :=
  { statusCode := statusCode }

/-- `HttpError.withInternalDetails`: records internal details and returns the
error for chaining. -/
def HttpError.withInternalDetails (e : HttpError) (d : List (String × String)) : HttpError :=
  { e with internalDetails := some d }

/-- An error value as seen by the parse caller: an `HttpError` built by the
wrapper, or an arbitrary other error (for instance, one a file handler
rejected with, or a tokenizer stream error), identified by a tag. -/
inductive Err where
  | http (e : HttpError)
  | other (tag : String)
deriving DecidableEq, Repr

/-- A settlement of the promise returned by `parse`. -/
inductive Outcome where
  | ok (fields : FieldsMap)
  | err (e : Err)
deriving DecidableEq, Repr

/-- Identity of a function that can sit in the request's `close` listener
slot.  The `BusboyWrapper` constructor registers the anonymous arrow
`() => this.cleanup`; `cleanup` calls `removeListener('close', this.cleanup)`
with the method itself. -/
inductive CloseFn where
  | anonArrow
  | cleanupMethod
deriving DecidableEq, Repr

/-- Which of the wrapper's own event listeners are currently registered on
the tokenizer/emitter. -/
structure Listeners where
  onFieldL : Bool
  onFileL : Bool
  onFinishL : Bool
  onErrorL : Bool
  onPartsLimitL : Bool
  onFilesLimitL : Bool
  onFieldsLimitL : Bool
deriving DecidableEq, Repr

/-- The observable state of one parser instance and of the promise returned
by its `parse` method.

`inflightStreams` lists the stream ids of file-handler invocations whose
promise has not yet settled (a settlement event is valid only for one of
these); `drained` lists the stream ids piped into the null sink; `invoked`
counts file-handler invocations and `cleanups` counts runs of `cleanup()`
(both are instrumentation: they record how often the code path ran and are
written by no other code path). -/
structure WState where
  fields : FieldsMap
  listeners : Listeners
  reqClose : Option CloseFn
  fileHandlerSet : Bool
  promiseBound : Bool
  settled : Option Outcome
  inflightStreams : List Nat
  drained : List Nat
  invoked : Nat
  cleanups : Nat
deriving DecidableEq, Repr

/-- Events that can be delivered to a parser instance: the `parse()` call
itself, tokenizer events, settlements of in-flight file-handler invocations,
and the request stream's `close` notification. -/
inductive Ev where
  | parse
  | fieldEv (name value : String) (nameTruncated valueTruncated : Bool) (encoding mimeType : String)
  | fileEv (fieldname : String) (fd : FileData)
  | handlerOk (sid : Nat)
  | handlerErr (sid : Nat) (e : Err)
  | finishEv
  | errorEv (e : Err)
  | partsLimitEv
  | filesLimitEv
  | fieldsLimitEv
  | reqCloseEv
deriving DecidableEq, Repr

/-- The kinds of limit-exceeded tokenizer events. -/
inductive LimitKind where
  | parts
  | files
  | fields
deriving DecidableEq, Repr

/-- The limit-event-to-error mapping implemented (inline, once per handler) by
`onPartsLimit` / `onFilesLimit` / `onFieldsLimit`:
`httpError(413).withInternalDetails({ reason: ... })`. -/
def limitError : LimitKind → HttpError
  | LimitKind.parts => (httpError 413).withInternalDetails [("reason", "Reached parts limit")]
  | LimitKind.files => (httpError 413).withInternalDetails [("reason", "Reached files limit")]
  | LimitKind.fields => (httpError 413).withInternalDetails [("reason", "Reached fields limit")]

namespace BusboyWrapper

/-- `BusboyWrapper.setData`: first occurrence stored bare; an existing array
gets the value pushed; an existing bare value is replaced by the two-element
array. -/
def setData (m : FieldsMap) (name : String) (data : MultipartData) : FieldsMap :=
  match mapGet m name with
  | none => mapSet m name (Entry.one data)
  | some (Entry.many prev) => mapSet m name (Entry.many (prev ++ [data]))
  | some (Entry.one prev) => mapSet m name (Entry.many [prev, data])

/-- Calling `this.resolve(this.fields)`.  Before `parse()` binds the promise,
`resolve` is the built-in no-op default; afterwards it is the promise's
resolver, and a promise keeps its first settlement. -/
def doResolve (s : WState) : WState :=
  if s.promiseBound ∧ s.settled = none then
    { s with settled := some (Outcome.ok s.fields) }
  else s

/-- Calling `this.reject(err)`; same no-op-default and first-settlement-wins
semantics as `doResolve`. -/
def doReject (s : WState) (e : Err) : WState :=
  if s.promiseBound ∧ s.settled = none then
    { s with settled := some (Outcome.err e) }
  else s

/-- `removeListener('close', target)` on the request: removes the registered
listener only if it is the very function passed. -/
def removeCloseListener (l : Option CloseFn) (target : CloseFn) : Option CloseFn :=
  if l = some target then none else l

/-- `BusboyWrapper.cleanup`: `req.removeListener('close', this.cleanup)`
followed by `removeListener` for each of the seven wrapper listeners. -/
def cleanup (s : WState) : WState :=
  { s with
    reqClose := removeCloseListener s.reqClose CloseFn.cleanupMethod,
    listeners := { onFieldL := false, onFileL := false, onFinishL := false,
                   onErrorL := false, onPartsLimitL := false,
                   onFilesLimitL := false, onFieldsLimitL := false },
    cleanups := s.cleanups + 1 }

/-- `BusboyWrapper.onEnd`: cleanup, then reject with the error if one was
given, else resolve with the fields map. -/
def onEnd (s : WState) (err : Option Err) : WState :=
  let s1 := cleanup s
  match err with
  | some e => doReject s1 e
  | none => doResolve s1

/-- `BusboyWrapper.onField`. -/
def onField (s : WState) (name value : String) (nT vT : Bool) (enc mime : String) : WState :=
  { s with fields := setData s.fields name (MultipartData.fieldPart ⟨value, nT, vT, enc, mime⟩) }

/-- `BusboyWrapper.onFile`: record the `FileData`, then, if a file handler
was supplied, invoke it (asynchronously — its settlement arrives later as a
`handlerOk`/`handlerErr` event for this stream id). -/
def onFile (s : WState) (fieldname : String) (fd : FileData) : WState :=
  let s1 := { s with fields := setData s.fields fieldname (MultipartData.filePart fd) }
  if s1.fileHandlerSet then
    { s1 with inflightStreams := s1.inflightStreams ++ [fd.stream],
              invoked := s1.invoked + 1 }
  else s1

/-- The `.then(() => { this.onEnd(); })` continuation of a file-handler
invocation.  It can fire only for an in-flight invocation, and a promise
settles once, so the stream id is retired from the in-flight list. -/
def handlerFulfilled (s : WState) (sid : Nat) : WState :=
  if sid ∈ s.inflightStreams then
    onEnd { s with inflightStreams := s.inflightStreams.erase sid } none
  else s

/-- The `.catch(reason => { stream.pipe(this.nullStream); this.onEnd(reason); })`
continuation of a file-handler invocation. -/
def handlerRejected (s : WState) (sid : Nat) (e : Err) : WState :=
  if sid ∈ s.inflightStreams then
    onEnd { s with inflightStreams := s.inflightStreams.erase sid,
                   drained := s.drained ++ [sid] } (some e)
  else s

/-- `BusboyWrapper.onPartsLimit`. -/
def onPartsLimit (s : WState) : WState :=
  onEnd s (some (Err.http ((httpError 413).withInternalDetails
    [("reason", "Reached parts limit")])))

/-- `BusboyWrapper.onFilesLimit`. -/
def onFilesLimit (s : WState) : WState :=
  onEnd s (some (Err.http ((httpError 413).withInternalDetails
    [("reason", "Reached files limit")])))

/-- `BusboyWrapper.onFieldsLimit`. -/
def onFieldsLimit (s : WState) : WState :=
  onEnd s (some (Err.http ((httpError 413).withInternalDetails
    [("reason", "Reached fields limit")])))

/-- `BusboyWrapper.parse(fileHandler)`: stores the handler and binds the
promise's resolve/reject in place of the no-op defaults, then pipes the
request into the tokenizer. -/
def parseCall (s : WState) : WState :=
  { s with fileHandlerSet := true, promiseBound := true }

/-- Running the function registered on the request's `close` event.  The
anonymous arrow registered by the constructor is `() => this.cleanup`: its
body evaluates the method reference and discards it, so it performs no state
change.  (Had `this.cleanup` itself been registered, running it would run
`cleanup`.) -/
def runCloseFn (s : WState) : CloseFn → WState
  | CloseFn.anonArrow => s
  | CloseFn.cleanupMethod => cleanup s

/-- One delivered event.  Tokenizer events run the corresponding handler
method exactly when its listener is registered; handler settlements are
promise continuations and do not go through the listener registry. -/
def step (s : WState) : Ev → WState
  | Ev.parse => parseCall s
  | Ev.fieldEv n v nT vT enc mime =>
      if s.listeners.onFieldL then onField s n v nT vT enc mime else s
  | Ev.fileEv fn fd => if s.listeners.onFileL then onFile s fn fd else s
  | Ev.handlerOk sid => handlerFulfilled s sid
  | Ev.handlerErr sid e => handlerRejected s sid e
  | Ev.finishEv => if s.listeners.onFinishL then onEnd s none else s
  | Ev.errorEv e => if s.listeners.onErrorL then onEnd s (some e) else s
  | Ev.partsLimitEv => if s.listeners.onPartsLimitL then onPartsLimit s else s
  | Ev.filesLimitEv => if s.listeners.onFilesLimitL then onFilesLimit s else s
  | Ev.fieldsLimitEv => if s.listeners.onFieldsLimitL then onFieldsLimit s else s
  | Ev.reqCloseEv =>
      match s.reqClose with
      | some f => runCloseFn s f
      | none => s

/-- State after the `BusboyWrapper` constructor: the seven wrapper listeners
registered on the emitter, and the anonymous arrow registered on the
request's `close` event. -/
def mkState : WState :=
  { fields := [],
    listeners := { onFieldL := true, onFileL := true, onFinishL := true,
                   onErrorL := true, onPartsLimitL := true,
                   onFilesLimitL := true, onFieldsLimitL := true },
    reqClose := some CloseFn.anonArrow,
    fileHandlerSet := false, promiseBound := false, settled := none,
    inflightStreams := [], drained := [], invoked := 0, cleanups := 0 }

/-- Deliver a sequence of events. -/
def run (s : WState) (evs : List Ev) : WState := evs.foldl step s

end BusboyWrapper

namespace MultipartRelatedParser

/-- `MultipartRelatedParser.setData` (textually identical to the form-data
variant's). -/
def setData (m : FieldsMap) (name : String) (data : MultipartData) : FieldsMap :=
  match mapGet m name with
  | none => mapSet m name (Entry.one data)
  | some (Entry.many prev) => mapSet m name (Entry.many (prev ++ [data]))
  | some (Entry.one prev) => mapSet m name (Entry.many [prev, data])

/-- `this.resolve(this.fields)` for the related parser (no-op default until
`parse()` binds the promise; first settlement wins). -/
def doResolve (s : WState) : WState :=
  if s.promiseBound ∧ s.settled = none then
    { s with settled := some (Outcome.ok s.fields) }
  else s

/-- `this.reject(err)` for the related parser. -/
def doReject (s : WState) (e : Err) : WState :=
  if s.promiseBound ∧ s.settled = none then
    { s with settled := some (Outcome.err e) }
  else s

/-- `removeListener('close', target)` on the request. -/
def removeCloseListener (l : Option CloseFn) (target : CloseFn) : Option CloseFn :=
  if l = some target then none else l

/-- `MultipartRelatedParser.cleanup` (textually identical to the form-data
variant's). -/
def cleanup (s : WState) : WState :=
  { s with
    reqClose := removeCloseListener s.reqClose CloseFn.cleanupMethod,
    listeners := { onFieldL := false, onFileL := false, onFinishL := false,
                   onErrorL := false, onPartsLimitL := false,
                   onFilesLimitL := false, onFieldsLimitL := false },
    cleanups := s.cleanups + 1 }

/-- `MultipartRelatedParser.onEnd`. -/
def onEnd (s : WState) (err : Option Err) : WState :=
  let s1 := cleanup s
  match err with
  | some e => doReject s1 e
  | none => doResolve s1

/-- `MultipartRelatedParser.onField`. -/
def onField (s : WState) (name value : String) (nT vT : Bool) (enc mime : String) : WState :=
  { s with fields := setData s.fields name (MultipartData.fieldPart ⟨value, nT, vT, enc, mime⟩) }

/-- `MultipartRelatedParser.onFile`. -/
def onFile (s : WState) (fieldname : String) (fd : FileData) : WState :=
  let s1 := { s with fields := setData s.fields fieldname (MultipartData.filePart fd) }
  if s1.fileHandlerSet then
    { s1 with inflightStreams := s1.inflightStreams ++ [fd.stream],
              invoked := s1.invoked + 1 }
  else s1

/-- The `.then` continuation of a file-handler invocation. -/
def handlerFulfilled (s : WState) (sid : Nat) : WState :=
  if sid ∈ s.inflightStreams then
    onEnd { s with inflightStreams := s.inflightStreams.erase sid } none
  else s

/-- The `.catch` continuation of a file-handler invocation (pipes the stream
into the null sink, then ends with the rejection reason). -/
def handlerRejected (s : WState) (sid : Nat) (e : Err) : WState :=
  if sid ∈ s.inflightStreams then
    onEnd { s with inflightStreams := s.inflightStreams.erase sid,
                   drained := s.drained ++ [sid] } (some e)
  else s

/-- `MultipartRelatedParser.onPartsLimit`. -/
def onPartsLimit (s : WState) : WState :=
  onEnd s (some (Err.http ((httpError 413).withInternalDetails
    [("reason", "Reached parts limit")])))

/-- `MultipartRelatedParser.onFilesLimit`. -/
def onFilesLimit (s : WState) : WState :=
  onEnd s (some (Err.http ((httpError 413).withInternalDetails
    [("reason", "Reached files limit")])))

/-- `MultipartRelatedParser.onFieldsLimit`. -/
def onFieldsLimit (s : WState) : WState :=
  onEnd s (some (Err.http ((httpError 413).withInternalDetails
    [("reason", "Reached fields limit")])))

/-- `MultipartRelatedParser.parse(fileHandler)`. -/
def parseCall (s : WState) : WState :=
  { s with fileHandlerSet := true, promiseBound := true }

/-- Running a function registered on the request's `close` event. -/
def runCloseFn (s : WState) : CloseFn → WState
  | CloseFn.anonArrow => s
  | CloseFn.cleanupMethod => cleanup s

/-- One delivered event for the related parser; dispatch is through the same
listener registry discipline as for the form-data variant. -/
def step (s : WState) : Ev → WState
  | Ev.parse => parseCall s
  | Ev.fieldEv n v nT vT enc mime =>
      if s.listeners.onFieldL then onField s n v nT vT enc mime else s
  | Ev.fileEv fn fd => if s.listeners.onFileL then onFile s fn fd else s
  | Ev.handlerOk sid => handlerFulfilled s sid
  | Ev.handlerErr sid e => handlerRejected s sid e
  | Ev.finishEv => if s.listeners.onFinishL then onEnd s none else s
  | Ev.errorEv e => if s.listeners.onErrorL then onEnd s (some e) else s
  | Ev.partsLimitEv => if s.listeners.onPartsLimitL then onPartsLimit s else s
  | Ev.filesLimitEv => if s.listeners.onFilesLimitL then onFilesLimit s else s
  | Ev.fieldsLimitEv => if s.listeners.onFieldsLimitL then onFieldsLimit s else s
  | Ev.reqCloseEv =>
      match s.reqClose with
      | some f => runCloseFn s f
      | none => s

/-- State after the `MultipartRelatedParser` constructor: it only calls
`super()` — unlike the form-data variant it registers no listener at all,
neither its own `on(...)` chain nor a request `close` listener. -/
def mkState : WState :=
  { fields := [],
    listeners := { onFieldL := false, onFileL := false, onFinishL := false,
                   onErrorL := false, onPartsLimitL := false,
                   onFilesLimitL := false, onFieldsLimitL := false },
    reqClose := none,
    fileHandlerSet := false, promiseBound := false, settled := none,
    inflightStreams := [], drained := [], invoked := 0, cleanups := 0 }

/-- Deliver a sequence of events to the related parser. -/
def run (s : WState) (evs : List Ev) : WState := evs.foldl step s

end MultipartRelatedParser

/-- One member of a TS object of type `MultipartLimits` (each key is
declared `number | undefined` and optional): `none` models a key that is
absent from the object, `some none` a key present with the explicit value
`undefined`, and `some (some v)` a key present with the number `v`.  The
distinction matters because JS object spread copies every own enumerable
property, explicitly-undefined ones included. -/
abbrev LimitMember := Option (Option Nat)

/-- The `MultipartLimits` record from types.ts, each bound a `LimitMember`. -/
structure MultipartLimits where
  fieldNameSize : LimitMember := none
  fieldSize : LimitMember := none
  fields : LimitMember := none
  fileSize : LimitMember := none
  files : LimitMember := none
  parts : LimitMember := none
  headerPairs : LimitMember := none
  headerSize : LimitMember := none
deriving DecidableEq, Repr

/-- One key of the object spread `{ ...d, ...o }`: the override's member wins
whenever the override carries that key — also when the carried value is the
explicit `undefined` (`some none`), which then displaces `d`'s member. -/
def spreadKey (d o : LimitMember) : LimitMember :=
  match o with
  | some v => some v
  | none => d

/-- The object spread `{ ...d, ...o }` over `MultipartLimits`, key by key. -/
def spreadLimits (d o : MultipartLimits) : MultipartLimits :=
  { fieldNameSize := spreadKey d.fieldNameSize o.fieldNameSize,
    fieldSize := spreadKey d.fieldSize o.fieldSize,
    fields := spreadKey d.fields o.fields,
    fileSize := spreadKey d.fileSize o.fileSize,
    files := spreadKey d.files o.files,
    parts := spreadKey d.parts o.parts,
    headerPairs := spreadKey d.headerPairs o.headerPairs,
    headerSize := spreadKey d.headerSize o.headerSize }

namespace MultipartBody

/-- `MAX_FILE_SIZE = 20 * 1024 * 1024` from multipart.body.ts. -/
def MAX_FILE_SIZE : Nat := 20 * 1024 * 1024

/-- The constructor's default for `_limits` when none is supplied:
`{ files: 1, fileSize: MAX_FILE_SIZE }` — both keys present with numeric
values. -/
def defaultLimits : MultipartLimits :=
  { files := some (some 1), fileSize := some (some MAX_FILE_SIZE) }

/-- `MultipartBody.constructor`: stores `_limits`, defaulting to
`defaultLimits` when the argument is omitted. -/
def construct (limits : Option MultipartLimits) : MultipartLimits :=
  limits.getD defaultLimits

/-- The limits `MultipartBody.parse` passes to the `BusboyWrapper` it
creates: `{ ...this._limits, ...limits }`, where spreading an absent
(`undefined`) `limits` argument contributes nothing. -/
def parseLimits (instLimits : MultipartLimits) (limits : Option MultipartLimits) : MultipartLimits :=
  match limits with
  | some o => spreadLimits instLimits o
  | none => spreadLimits instLimits {}

end MultipartBody

/-- The terminal tokenizer events of one parse operation: `finish`, `error`,
and the three limit-exceeded events. -/
def isTerminalEv : Ev → Bool
  | Ev.finishEv => true
  | Ev.errorEv _ => true
  | Ev.partsLimitEv => true
  | Ev.filesLimitEv => true
  | Ev.fieldsLimitEv => true
  | _ => false

/-- A state in which nothing can ever settle the parse promise: no listener
is registered, no file-handler invocation is in flight, and the promise is
still pending. -/
def quiescent (s : WState) : Prop :=
  s.listeners.onFieldL = false ∧ s.listeners.onFileL = false ∧
  s.listeners.onFinishL = false ∧ s.listeners.onErrorL = false ∧
  s.listeners.onPartsLimitL = false ∧ s.listeners.onFilesLimitL = false ∧
  s.listeners.onFieldsLimitL = false ∧
  s.inflightStreams = [] ∧ s.settled = none

/-! Helper lemmas. -/

theorem mapGet_mapSet_self (m : FieldsMap) (k : String) (v : Entry) :
    mapGet (mapSet m k v) k = some v := by
  induction m with
  | nil => simp [mapSet, mapGet]
  | cons hd tl ih =>
    obtain ⟨k', v'⟩ := hd
    by_cases hk : k' = k
    · simp [mapSet, mapGet, hk]
    · simp [mapSet, mapGet, hk, ih]

theorem steps_agree (s : WState) (ev : Ev) :
    BusboyWrapper.step s ev = MultipartRelatedParser.step s ev := rfl

theorem quiescent_step (s : WState) (ev : Ev) (h : quiescent s) :
    quiescent (BusboyWrapper.step s ev) := by
  obtain ⟨h1, h2, h3, h4, h5, h6, h7, h8, h9⟩ := h
  cases ev with
  | parse =>
    exact ⟨h1, h2, h3, h4, h5, h6, h7, h8, h9⟩
  | fieldEv n v nT vT enc mime =>
    simpa [BusboyWrapper.step, h1] using ⟨h1, h2, h3, h4, h5, h6, h7, h8, h9⟩
  | fileEv fn fd =>
    simpa [BusboyWrapper.step, h2] using ⟨h1, h2, h3, h4, h5, h6, h7, h8, h9⟩
  | handlerOk sid =>
    simpa [BusboyWrapper.step, BusboyWrapper.handlerFulfilled, h8] using
      ⟨h1, h2, h3, h4, h5, h6, h7, h8, h9⟩
  | handlerErr sid e =>
    simpa [BusboyWrapper.step, BusboyWrapper.handlerRejected, h8] using
      ⟨h1, h2, h3, h4, h5, h6, h7, h8, h9⟩
  | finishEv =>
    simpa [BusboyWrapper.step, h3] using ⟨h1, h2, h3, h4, h5, h6, h7, h8, h9⟩
  | errorEv e =>
    simpa [BusboyWrapper.step, h4] using ⟨h1, h2, h3, h4, h5, h6, h7, h8, h9⟩
  | partsLimitEv =>
    simpa [BusboyWrapper.step, h5] using ⟨h1, h2, h3, h4, h5, h6, h7, h8, h9⟩
  | filesLimitEv =>
    simpa [BusboyWrapper.step, h6] using ⟨h1, h2, h3, h4, h5, h6, h7, h8, h9⟩
  | fieldsLimitEv =>
    simpa [BusboyWrapper.step, h7] using ⟨h1, h2, h3, h4, h5, h6, h7, h8, h9⟩
  | reqCloseEv =>
    unfold BusboyWrapper.step
    cases hc : s.reqClose with
    | none => exact ⟨h1, h2, h3, h4, h5, h6, h7, h8, h9⟩
    | some f =>
      cases f with
      | anonArrow =>
        exact ⟨h1, h2, h3, h4, h5, h6, h7, h8, h9⟩
      | cleanupMethod =>
        exact ⟨rfl, rfl, rfl, rfl, rfl, rfl, rfl, h8, h9⟩

theorem quiescent_run (s : WState) (evs : List Ev) (h : quiescent s) :
    quiescent (BusboyWrapper.run s evs) := by
  induction evs generalizing s with
  | nil => exact h
  | cons ev rest ih => exact ih _ (quiescent_step s ev h)

theorem quiescent_run_settled (s : WState) (evs : List Ev) (h : quiescent s) :
    (BusboyWrapper.run s evs).settled = none :=
  (quiescent_run s evs h).2.2.2.2.2.2.2.2

theorem terminal_step_eq (s : WState) (t : Ev) (ht : isTerminalEv t = true)
    (h3 : s.listeners.onFinishL = false) (h4 : s.listeners.onErrorL = false)
    (h5 : s.listeners.onPartsLimitL = false) (h6 : s.listeners.onFilesLimitL = false)
    (h7 : s.listeners.onFieldsLimitL = false) :
    BusboyWrapper.step s t = s := by
  cases t <;> simp_all [isTerminalEv, BusboyWrapper.step]

theorem terminal_run_eq (s : WState) (ts : List Ev) (ht : ∀ t ∈ ts, isTerminalEv t = true)
    (h3 : s.listeners.onFinishL = false) (h4 : s.listeners.onErrorL = false)
    (h5 : s.listeners.onPartsLimitL = false) (h6 : s.listeners.onFilesLimitL = false)
    (h7 : s.listeners.onFieldsLimitL = false) :
    BusboyWrapper.run s ts = s := by
  induction ts with
  | nil => rfl
  | cons t rest ih =>
    have hs : BusboyWrapper.step s t = s :=
      terminal_step_eq s t (ht t (by simp)) h3 h4 h5 h6 h7
    calc BusboyWrapper.run s (t :: rest)
        = BusboyWrapper.run (BusboyWrapper.step s t) rest := rfl
      _ = BusboyWrapper.run s rest := by rw [hs]
      _ = s := ih (fun u hu => ht u (by simp [hu]))

/-! The claims. -/

/-- C4: for any field name the first recorded part is stored bare (not
wrapped in a list); each further part with the same name converts the entry
into an ordered list and appends, preserving arrival order; and the two
parser variants implement the same accumulation function. -/
theorem C4_result_accumulation (m : FieldsMap) (n : String) (d : MultipartData) :
    (mapGet m n = none →
      mapGet (BusboyWrapper.setData m n d) n = some (Entry.one d)) ∧
    (∀ p, mapGet m n = some (Entry.one p) →
      mapGet (BusboyWrapper.setData m n d) n = some (Entry.many [p, d])) ∧
    (∀ ps, mapGet m n = some (Entry.many ps) →
      mapGet (BusboyWrapper.setData m n d) n = some (Entry.many (ps ++ [d]))) ∧
    BusboyWrapper.setData m n d = MultipartRelatedParser.setData m n d := by
  refine ⟨?_, ?_, ?_, rfl⟩
  · intro h
    simp [BusboyWrapper.setData, h, mapGet_mapSet_self]
  · intro p h
    simp [BusboyWrapper.setData, h, mapGet_mapSet_self]
  · intro ps h
    simp [BusboyWrapper.setData, h, mapGet_mapSet_self]

/-- Witness for C4: two field parts named `tag` submitted in order yield
exactly the two-element list, in arrival order. -/
theorem C4_witness :
    mapGet (BusboyWrapper.setData
        (BusboyWrapper.setData [] "tag"
          (MultipartData.fieldPart ⟨"x", false, false, "utf-8", "text/plain"⟩))
        "tag" (MultipartData.fieldPart ⟨"y", false, false, "utf-8", "text/plain"⟩)) "tag" =
      some (Entry.many
        [MultipartData.fieldPart ⟨"x", false, false, "utf-8", "text/plain"⟩,
         MultipartData.fieldPart ⟨"y", false, false, "utf-8", "text/plain"⟩]) :=
  (C4_result_accumulation
      (BusboyWrapper.setData [] "tag"
        (MultipartData.fieldPart ⟨"x", false, false, "utf-8", "text/plain"⟩))
      "tag" (MultipartData.fieldPart ⟨"y", false, false, "utf-8", "text/plain"⟩)).2.1
    (MultipartData.fieldPart ⟨"x", false, false, "utf-8", "text/plain"⟩) (by decide)

/-- C5: each limit-exceeded event maps, by a pure function of the event kind,
to an HTTP-413 error whose internal-details reason string names the limit
exactly, and delivering the event to a pending parse operation rejects the
promise with precisely that error value. -/
theorem C5_limit_error_mapping :
    (limitError LimitKind.parts =
        { statusCode := 413, internalDetails := some [("reason", "Reached parts limit")] } ∧
      limitError LimitKind.files =
        { statusCode := 413, internalDetails := some [("reason", "Reached files limit")] } ∧
      limitError LimitKind.fields =
        { statusCode := 413, internalDetails := some [("reason", "Reached fields limit")] }) ∧
    ∀ s : WState, s.promiseBound = true → s.settled = none →
      ((s.listeners.onPartsLimitL = true →
        (BusboyWrapper.step s Ev.partsLimitEv).settled =
          some (Outcome.err (Err.http (limitError LimitKind.parts)))) ∧
       (s.listeners.onFilesLimitL = true →
        (BusboyWrapper.step s Ev.filesLimitEv).settled =
          some (Outcome.err (Err.http (limitError LimitKind.files)))) ∧
       (s.listeners.onFieldsLimitL = true →
        (BusboyWrapper.step s Ev.fieldsLimitEv).settled =
          some (Outcome.err (Err.http (limitError LimitKind.fields))))) := by
  refine ⟨⟨rfl, rfl, rfl⟩, ?_⟩
  intro s hp hs
  refine ⟨?_, ?_, ?_⟩ <;> intro hl <;>
    simp [BusboyWrapper.step, BusboyWrapper.onPartsLimit, BusboyWrapper.onFilesLimit,
      BusboyWrapper.onFieldsLimit, BusboyWrapper.onEnd, BusboyWrapper.cleanup,
      BusboyWrapper.doReject, limitError, httpError, HttpError.withInternalDetails,
      hl, hp, hs]

/-- Witness for C5: a files-limit event delivered right after `parse()`
rejects the promise with the 413 files-limit error. -/
theorem C5_witness :
    (BusboyWrapper.step (BusboyWrapper.step BusboyWrapper.mkState Ev.parse)
        Ev.filesLimitEv).settled =
      some (Outcome.err (Err.http (limitError LimitKind.files))) :=
  ((C5_limit_error_mapping).2 (BusboyWrapper.step BusboyWrapper.mkState Ev.parse)
    (by decide) (by decide)).2.1 (by decide)

/-- C8: `MultipartBody.parse` merges per-call limit overrides with the
instance defaults key by key, the override winning exactly on the keys it
carries — a key carried with the explicit value `undefined` also displaces
the default, as JS spread copies it; an omitted per-call record leaves the
instance limits unchanged; the constructor's defaults are `files = 1` and
`fileSize = 20 MB`; and, for the formerly subtle case, an override of
`{ files: undefined }` replaces the default `files = 1` with `undefined`. -/
theorem C8_limits_merge (d o : MultipartLimits) :
    ((MultipartBody.parseLimits d (some o)).fieldNameSize =
        (match o.fieldNameSize with | some v => some v | none => d.fieldNameSize) ∧
     (MultipartBody.parseLimits d (some o)).fieldSize =
        (match o.fieldSize with | some v => some v | none => d.fieldSize) ∧
     (MultipartBody.parseLimits d (some o)).fields =
        (match o.fields with | some v => some v | none => d.fields) ∧
     (MultipartBody.parseLimits d (some o)).fileSize =
        (match o.fileSize with | some v => some v | none => d.fileSize) ∧
     (MultipartBody.parseLimits d (some o)).files =
        (match o.files with | some v => some v | none => d.files) ∧
     (MultipartBody.parseLimits d (some o)).parts =
        (match o.parts with | some v => some v | none => d.parts) ∧
     (MultipartBody.parseLimits d (some o)).headerPairs =
        (match o.headerPairs with | some v => some v | none => d.headerPairs) ∧
     (MultipartBody.parseLimits d (some o)).headerSize =
        (match o.headerSize with | some v => some v | none => d.headerSize)) ∧
    MultipartBody.parseLimits d none = d ∧
    MultipartBody.construct none =
      { fieldNameSize := none, fieldSize := none, fields := none,
        fileSize := some (some (20 * 1024 * 1024)), files := some (some 1), parts := none,
        headerPairs := none, headerSize := none } ∧
    (MultipartBody.parseLimits MultipartBody.defaultLimits
        (some { files := some none })).files = some none ∧
    (MultipartBody.parseLimits MultipartBody.defaultLimits
        (some { files := some none })).fileSize = some (some (20 * 1024 * 1024)) := by
  refine ⟨⟨rfl, rfl, rfl, rfl, rfl, rfl, rfl, rfl⟩, ?_, rfl, rfl, rfl⟩
  show spreadLimits d {} = d
  cases d
  simp [spreadLimits, spreadKey]

/-- C1 counterexample: in a trace in which the tokenizer never signals
stream-end (no `finish` event is delivered), a single file handler
completing successfully already resolves the parse promise with success —
so handler success alone does settle the operation, contradicting the
claim that success requires stream-end to have been signaled. -/
theorem C1_counterexample :
    (BusboyWrapper.run BusboyWrapper.mkState
        [Ev.parse, Ev.fileEv "upload" ⟨0, "a.txt", "7bit", "text/plain"⟩,
         Ev.handlerOk 0]).settled =
      some (Outcome.ok
        [("upload", Entry.one (MultipartData.filePart ⟨0, "a.txt", "7bit", "text/plain"⟩))]) := by
  decide

/-- C1 (amended): a file-handler success settles the operation by itself —
`onFile` chains `onEnd()` onto handler fulfilment with no tracking of
stream-end or of other in-flight handlers, so a successful handler
completion on a pending operation immediately resolves the promise with the
fields collected so far. -/
theorem C1_amended_thm (s : WState) (sid : Nat) (h1 : sid ∈ s.inflightStreams)
    (h2 : s.promiseBound = true) (h3 : s.settled = none) :
    (BusboyWrapper.step s (Ev.handlerOk sid)).settled = some (Outcome.ok s.fields) := by
  simp [BusboyWrapper.step, BusboyWrapper.handlerFulfilled, BusboyWrapper.onEnd,
    BusboyWrapper.cleanup, BusboyWrapper.doResolve, h1, h2, h3]

/-- Witness for C1 (amended): concrete pending state with one in-flight
handler; its success resolves the promise with the current fields. -/
theorem C1_witness :
    (BusboyWrapper.step
        { BusboyWrapper.mkState with
            fileHandlerSet := true, promiseBound := true, inflightStreams := [5], invoked := 1 }
        (Ev.handlerOk 5)).settled =
      some (Outcome.ok
        ({ BusboyWrapper.mkState with
            fileHandlerSet := true, promiseBound := true, inflightStreams := [5], invoked := 1 } :
          WState).fields) :=
  C1_amended_thm
    { BusboyWrapper.mkState with
        fileHandlerSet := true, promiseBound := true, inflightStreams := [5], invoked := 1 }
    5 (by decide) (by decide) (by decide)

/-- C2 counterexample: with `files = 1` and two file parts, the tokenizer
delivers the first file and then the files-limit event; but if the caller's
handler for the first (accepted) file settles successfully before the
files-limit event arrives — a legal interleaving, since the handler settles
on a microtask while the limit is detected only when later body bytes are
parsed — the parse promise resolves with success instead of rejecting with
the files-limit error, refuting the claim that parse() fails. -/
theorem C2_counterexample :
    (BusboyWrapper.run BusboyWrapper.mkState
        [Ev.parse, Ev.fileEv "f1" ⟨0, "a.txt", "7bit", "text/plain"⟩,
         Ev.handlerOk 0, Ev.filesLimitEv]).settled =
      some (Outcome.ok
        [("f1", Entry.one (MultipartData.filePart ⟨0, "a.txt", "7bit", "text/plain"⟩))]) ∧
    (BusboyWrapper.run BusboyWrapper.mkState
        [Ev.parse, Ev.fileEv "f1" ⟨0, "a.txt", "7bit", "text/plain"⟩,
         Ev.handlerOk 0, Ev.filesLimitEv]).invoked = 1 := by
  decide

/-- C2 (amended): with `files = 1` and two file parts, the tokenizer
delivers the accepted file and then the files-limit signal; provided no
in-flight handler settlement arrives first, the parse rejects with the
413 files-limit error, and the file handler is invoked exactly once — a
file event delivered after the limit event is ignored, its listener having
been removed. -/
theorem C2_amended_thm (n1 n2 : String) (fd1 fd2 : FileData) :
    (BusboyWrapper.run BusboyWrapper.mkState
        [Ev.parse, Ev.fileEv n1 fd1, Ev.filesLimitEv, Ev.fileEv n2 fd2]).settled =
      some (Outcome.err (Err.http (limitError LimitKind.files))) ∧
    (BusboyWrapper.run BusboyWrapper.mkState
        [Ev.parse, Ev.fileEv n1 fd1, Ev.filesLimitEv, Ev.fileEv n2 fd2]).invoked = 1 := by
  simp [BusboyWrapper.run, BusboyWrapper.step, BusboyWrapper.parseCall,
    BusboyWrapper.onFile, BusboyWrapper.setData, mapGet, mapSet,
    BusboyWrapper.onFilesLimit, BusboyWrapper.onEnd, BusboyWrapper.cleanup,
    BusboyWrapper.doReject, BusboyWrapper.mkState, limitError, httpError,
    HttpError.withInternalDetails]

/-- C6: when a file handler rejects, its file's stream is piped into the
null (discard) sink, and — while the operation is still pending — the parse
promise rejects with the handler's error value unmodified. -/
theorem C6_handler_failure (s : WState) (sid : Nat) (e : Err)
    (h1 : sid ∈ s.inflightStreams) :
    sid ∈ (BusboyWrapper.step s (Ev.handlerErr sid e)).drained ∧
    (s.promiseBound = true → s.settled = none →
      (BusboyWrapper.step s (Ev.handlerErr sid e)).settled = some (Outcome.err e)) := by
  constructor
  · simp only [BusboyWrapper.step, BusboyWrapper.handlerRejected, BusboyWrapper.onEnd,
      BusboyWrapper.cleanup, BusboyWrapper.doReject, h1, if_true]
    split <;> simp
  · intro h2 h3
    simp [BusboyWrapper.step, BusboyWrapper.handlerRejected, BusboyWrapper.onEnd,
      BusboyWrapper.cleanup, BusboyWrapper.doReject, h1, h2, h3]

/-- Witness for C6: a handler for stream 3 rejecting with a "disk full"
error drains stream 3 and rejects the pending parse with that very error. -/
theorem C6_witness :
    3 ∈ (BusboyWrapper.step
        { BusboyWrapper.mkState with
            fileHandlerSet := true, promiseBound := true, inflightStreams := [3], invoked := 1 }
        (Ev.handlerErr 3 (Err.other "disk full"))).drained ∧
    (BusboyWrapper.step
        { BusboyWrapper.mkState with
            fileHandlerSet := true, promiseBound := true, inflightStreams := [3], invoked := 1 }
        (Ev.handlerErr 3 (Err.other "disk full"))).settled =
      some (Outcome.err (Err.other "disk full")) := by
  have h := C6_handler_failure
    { BusboyWrapper.mkState with
        fileHandlerSet := true, promiseBound := true, inflightStreams := [3], invoked := 1 }
    3 (Err.other "disk full") (by decide)
  exact ⟨h.1, h.2 (by decide) (by decide)⟩

/-- C7: the code contradicts the claim.  The constructor registers the
arrow `() => this.cleanup` on the request's `close` event — its body only
evaluates the method reference and never invokes it, so a close
notification runs no cleanup at all (first conjunct: delivering `close`
right after `parse()` changes nothing); and `cleanup` calls
`req.removeListener('close', this.cleanup)` with a function that was never
registered, so settling branches leave the close listener attached (second
conjunct: after `finish` has settled the operation, the close listener
registered by the constructor is still in place). -/
theorem C7_close_listener_bug :
    BusboyWrapper.step (BusboyWrapper.step BusboyWrapper.mkState Ev.parse) Ev.reqCloseEv =
      BusboyWrapper.step BusboyWrapper.mkState Ev.parse ∧
    (BusboyWrapper.run BusboyWrapper.mkState [Ev.parse, Ev.finishEv]).reqClose =
      some CloseFn.anonArrow ∧
    (BusboyWrapper.run BusboyWrapper.mkState [Ev.parse, Ev.finishEv]).cleanups = 1 := by
  decide

/-- C3: for every nonempty sequence of terminal events (finish, error, or a
limit event) delivered to one parse operation, the first event alone
determines the final state — the promise settles exactly once, with the
first event's outcome, cleanup runs exactly once, and every later terminal
event is a strict no-op. -/
theorem C3_single_settlement (t0 : Ev) (rest : List Ev) (h0 : isTerminalEv t0 = true)
    (hr : ∀ t ∈ rest, isTerminalEv t = true) :
    BusboyWrapper.run (BusboyWrapper.step BusboyWrapper.mkState Ev.parse) (t0 :: rest) =
      BusboyWrapper.step (BusboyWrapper.step BusboyWrapper.mkState Ev.parse) t0 ∧
    (BusboyWrapper.step (BusboyWrapper.step BusboyWrapper.mkState Ev.parse) t0).settled ≠ none ∧
    (BusboyWrapper.step (BusboyWrapper.step BusboyWrapper.mkState Ev.parse) t0).cleanups = 1 := by
  have key :
      ((BusboyWrapper.step (BusboyWrapper.step BusboyWrapper.mkState Ev.parse)
          t0).listeners.onFinishL = false ∧
        (BusboyWrapper.step (BusboyWrapper.step BusboyWrapper.mkState Ev.parse)
          t0).listeners.onErrorL = false ∧
        (BusboyWrapper.step (BusboyWrapper.step BusboyWrapper.mkState Ev.parse)
          t0).listeners.onPartsLimitL = false ∧
        (BusboyWrapper.step (BusboyWrapper.step BusboyWrapper.mkState Ev.parse)
          t0).listeners.onFilesLimitL = false ∧
        (BusboyWrapper.step (BusboyWrapper.step BusboyWrapper.mkState Ev.parse)
          t0).listeners.onFieldsLimitL = false) ∧
      (BusboyWrapper.step (BusboyWrapper.step BusboyWrapper.mkState Ev.parse)
        t0).settled ≠ none ∧
      (BusboyWrapper.step (BusboyWrapper.step BusboyWrapper.mkState Ev.parse)
        t0).cleanups = 1 := by
    cases t0 with
    | finishEv => exact ⟨⟨rfl, rfl, rfl, rfl, rfl⟩, by decide, rfl⟩
    | errorEv e =>
      refine ⟨⟨rfl, rfl, rfl, rfl, rfl⟩, ?_, rfl⟩
      change some (Outcome.err e) ≠ none
      simp
    | partsLimitEv => exact ⟨⟨rfl, rfl, rfl, rfl, rfl⟩, by decide, rfl⟩
    | filesLimitEv => exact ⟨⟨rfl, rfl, rfl, rfl, rfl⟩, by decide, rfl⟩
    | fieldsLimitEv => exact ⟨⟨rfl, rfl, rfl, rfl, rfl⟩, by decide, rfl⟩
    | parse => simp [isTerminalEv] at h0
    | fieldEv n v nT vT enc mime => simp [isTerminalEv] at h0
    | fileEv fn fd => simp [isTerminalEv] at h0
    | handlerOk sid => simp [isTerminalEv] at h0
    | handlerErr sid e => simp [isTerminalEv] at h0
    | reqCloseEv => simp [isTerminalEv] at h0
  obtain ⟨⟨l3, l4, l5, l6, l7⟩, hset, hcl⟩ := key
  refine ⟨?_, hset, hcl⟩
  exact terminal_run_eq _ rest hr l3 l4 l5 l6 l7

/-- Witness for C3: a finish followed by a late error leaves the state of
the first settlement untouched. -/
theorem C3_witness :
    BusboyWrapper.run (BusboyWrapper.step BusboyWrapper.mkState Ev.parse)
        [Ev.finishEv, Ev.errorEv (Err.other "late")] =
      BusboyWrapper.step (BusboyWrapper.step BusboyWrapper.mkState Ev.parse) Ev.finishEv ∧
    (BusboyWrapper.step (BusboyWrapper.step BusboyWrapper.mkState Ev.parse)
      Ev.finishEv).settled ≠ none ∧
    (BusboyWrapper.step (BusboyWrapper.step BusboyWrapper.mkState Ev.parse)
      Ev.finishEv).cleanups = 1 :=
  C3_single_settlement Ev.finishEv [Ev.errorEv (Err.other "late")] (by decide) (by decide)

/-- C9 counterexample: for the very same event sequence — `parse()` then the
tokenizer's finish — the form-data wrapper resolves while the
multipart/related parser, whose constructor registers no listeners, stays
pending; the two are not behaviorally equivalent. -/
theorem C9_not_equivalent :
    (MultipartRelatedParser.run MultipartRelatedParser.mkState
        [Ev.parse, Ev.finishEv]).settled ≠
      (BusboyWrapper.run BusboyWrapper.mkState [Ev.parse, Ev.finishEv]).settled := by
  decide

/-- C9 (amended): the per-event handler logic of the multipart/related
parser is pointwise identical to the form-data variant's (the step
functions agree on every state and event), but the related parser's
constructor registers no listeners, so for any delivered event sequence its
parse promise never settles — equivalence of the handler bodies, not of the
observable parse behavior. -/
theorem C9_amended_thm :
    (∀ s ev, BusboyWrapper.step s ev = MultipartRelatedParser.step s ev) ∧
    ∀ evs, (MultipartRelatedParser.run MultipartRelatedParser.mkState evs).settled = none := by
  refine ⟨steps_agree, ?_⟩
  intro evs
  have hstep : BusboyWrapper.step = MultipartRelatedParser.step :=
    funext fun s => funext fun ev => steps_agree s ev
  have hf : MultipartRelatedParser.run MultipartRelatedParser.mkState evs =
      BusboyWrapper.run MultipartRelatedParser.mkState evs := by
    unfold MultipartRelatedParser.run BusboyWrapper.run
    rw [hstep]
  rw [hf]
  exact quiescent_run_settled _ evs ⟨rfl, rfl, rfl, rfl, rfl, rfl, rfl, rfl, rfl⟩

/-- C10 counterexample: a finish delivered before `parse()` runs the cleanup
path, but cleanup does not remove the close listener the constructor
registered on the request (it deregisters a different function reference),
so "cleanup removes all registered listeners" is false. -/
theorem C10_counterexample :
    (BusboyWrapper.step BusboyWrapper.mkState Ev.finishEv).cleanups = 1 ∧
    (BusboyWrapper.step BusboyWrapper.mkState Ev.finishEv).reqClose =
      some CloseFn.anonArrow := by
  decide

/-- C10 (amended): a terminal event delivered before `parse()` is absorbed
by the no-op resolve/reject defaults (the promise-to-be stays unsettled),
cleanup runs once and removes the seven tokenizer-event listeners (though
not the request close listener), and a promise returned by a subsequent
`parse()` on that instance never settles, whatever events follow. -/
theorem C10_amended_thm (t0 : Ev) (h0 : isTerminalEv t0 = true) (evs : List Ev) :
    (BusboyWrapper.step BusboyWrapper.mkState t0).settled = none ∧
    (BusboyWrapper.step BusboyWrapper.mkState t0).cleanups = 1 ∧
    (BusboyWrapper.step BusboyWrapper.mkState t0).listeners =
      { onFieldL := false, onFileL := false, onFinishL := false, onErrorL := false,
        onPartsLimitL := false, onFilesLimitL := false, onFieldsLimitL := false } ∧
    (BusboyWrapper.run
        (BusboyWrapper.step (BusboyWrapper.step BusboyWrapper.mkState t0) Ev.parse)
        evs).settled = none := by
  cases t0 <;> simp [isTerminalEv] at h0 <;>
    exact ⟨rfl, rfl, rfl,
      quiescent_run_settled _ evs ⟨rfl, rfl, rfl, rfl, rfl, rfl, rfl, rfl, rfl⟩⟩

/-- Witness for C10: a pre-parse finish, then `parse()`, then further
terminal events — the new promise stays pending. -/
theorem C10_witness :
    (BusboyWrapper.step BusboyWrapper.mkState Ev.finishEv).settled = none ∧
    (BusboyWrapper.step BusboyWrapper.mkState Ev.finishEv).cleanups = 1 ∧
    (BusboyWrapper.step BusboyWrapper.mkState Ev.finishEv).listeners =
      { onFieldL := false, onFileL := false, onFinishL := false, onErrorL := false,
        onPartsLimitL := false, onFilesLimitL := false, onFieldsLimitL := false } ∧
    (BusboyWrapper.run
        (BusboyWrapper.step (BusboyWrapper.step BusboyWrapper.mkState Ev.finishEv) Ev.parse)
        [Ev.finishEv, Ev.errorEv (Err.other "boom")]).settled = none :=
  C10_amended_thm Ev.finishEv (by decide) [Ev.finishEv, Ev.errorEv (Err.other "boom")]

end ServerKit
